import Mathlib

/-!
Verification of `src/api_proxy_helper.py` against its specification.

Modelling conventions for the shallow embedding:
* Python floats are modelled as exact rationals (`ℚ`); the arithmetic the
  program performs on them (`1 - distance`, threshold comparison) is exact
  in this model.
* An HTTP call (`requests.get` / `requests.post` followed by
  `raise_for_status` and `.json()`) is modelled as an oracle value of type
  `Except String β`: `.error msg` means the call raised an exception whose
  `str` is `msg`, `.ok body` means a decoded JSON body.
* A JSON field that may be present or absent is an `Option`.
* Python exceptions inside a `try` body are modelled with `Except String`;
  the `except` clause is the surrounding `match` that converts the error to
  the returned payload.
* Diagnostic prints to `stderr` are side effects with no influence on the
  returned value and are not modelled.
-/

/-- A JSON value, used for the payloads this program passes through opaquely
(result metadata, the chat context blob, the raw chat response). -/
inductive Json where
  | null : Json
  | bool (b : Bool) : Json
  | num (q : ℚ) : Json
  | str (s : String) : Json
  | arr (elems : List Json) : Json
  | obj (fields : List (String × Json)) : Json

/-- Python's truth test (`if x:`) on a JSON value: `None`, `False`, zero,
and empty strings/lists/dicts are falsy, everything else truthy. -/
def jsonTruthy : Json → Bool
  | .null => false
  | .bool b => b
  | .num q => if q = 0 then false else true
  | .str s => if s = "" then false else true
  | .arr elems => !elems.isEmpty
  | .obj fields => !fields.isEmpty

/-- A JSON value that is literally empty: an empty array, object or string.
This follows the spec's words ("non-empty"), to be compared with the
source's Python truth test `jsonTruthy`. -/
def jsonIsEmpty : Json → Bool
  | .arr [] => true
  | .obj [] => true
  | .str "" => true
  | _ => false

/-- Whether a JSON value is `null`. -/
def jsonIsNull : Json → Bool
  | .null => true
  | _ => false

/-! ## Model lister (`get_models_from_ollama`, lines 7-36) -/

/-- One record of the `models` array of the `GET {base_url}/api/tags`
response: a `name` plus whatever detail fields the server sends. -/
structure ModelRecord where
  name : String
  details : List (String × Json)

/-- The decoded body of the tags endpoint; `models = none` means the
`'models'` key is absent. -/
structure TagsResponse where
  models : Option (List ModelRecord)

/-- The value `get_models_from_ollama` returns: one of its two success
dict shapes, or the `{"error": ...}` dict. -/
inductive ModelsResult where
  | names (models : List String) (count : Nat) : ModelsResult
  | detailed (models : List ModelRecord) (count : Nat) : ModelsResult
  | error (msg : String) : ModelsResult

/-- Lines 7-36. `resp` is the behaviour of the HTTP call: `.error e` when
`requests.get`/`raise_for_status`/`.json()` raises with message `e`. -/
def get_models_from_ollama (resp : Except String TagsResponse)
    (include_details : Bool) : ModelsResult :=
  match resp with
  | .error e => .error ("Error getting models: " ++ e)
  | .ok result =>
    match result.models with
    | none => .error "Unexpected response format"
    | some models =>
      if !include_details then
        let model_names := models.map (fun model => model.name)
        .names model_names model_names.length
      else
        .detailed models models.length

/-! ## Embedder (`get_embedding_from_ollama`, lines 38-59) -/

/-- The decoded body of `POST {base_url}/api/embeddings`; `embedding = none`
means the `'embedding'` key is absent. -/
structure EmbedResponse where
  embedding : Option (List ℚ)

/-- Lines 38-59: returns the raw embedding vector on success and `None`
(here `none`) both when the `'embedding'` field is missing and when the
HTTP call raises. -/
def get_embedding_from_ollama (resp : Except String EmbedResponse) :
    Option (List ℚ) :=
  match resp with
  | .error _ => none
  | .ok result =>
    match result.embedding with
    | some v => some v
    | none => none

/-! ## Similarity query (`query_chroma`, lines 61-106) -/

/-- Python's truth test on the value `get_embedding_from_ollama` returned
(line 66, `if not query_embedding:`): `None` and the empty list are falsy. -/
def pyListFalsy : Option (List ℚ) → Bool
  | none => true
  | some [] => true
  | some (_ :: _) => false

/-- The `settings=` argument of `chromadb.PersistentClient` (line 70). -/
structure Settings where
  anonymized_telemetry : Bool

/-- The decoded return value of `collection.query` (line 79): parallel outer
lists (one inner list per query embedding) of distances, documents and
metadata dicts. -/
structure QueryResults where
  distances : List (List ℚ)
  documents : List (List String)
  metadatas : List (List Json)

/-- One entry of `processed_results` (lines 95-99). -/
structure ResultItem where
  document : String
  metadata : Json
  similarity : ℚ

/-- The value `query_chroma` returns: the success dict
`{"results": ..., "count": ...}` or the `{"error": ...}` dict. -/
inductive QueryOutput where
  | success (results : List ResultItem) (count : Nat) : QueryOutput
  | error (msg : String) : QueryOutput

/-- The behaviour of the external services that one `query_chroma` call can
observe: the embeddings HTTP call for the given prompt/model/url, and the
vector store's reaction to the connection, the collection lookup and the
search (the search response may depend on the requested `n_results`).
`.error msg` always means "raises an exception whose `str` is `msg`". -/
structure ChromaWorld where
  embedResp : Except String EmbedResponse
  connect : Settings → Except String Unit
  getCollection : Except String Unit
  queryCall : Int → Except String QueryResults

/-- Default of the `n_results` parameter in the signature on line 61. -/
def default_n_results : Int := 5

/-- Default of the `threshold` parameter in the signature on line 61. -/
def default_threshold : ℚ := 75 / 100

/-- Lines 92-99: the loop over
`zip(results["documents"][0], results["metadatas"][0], similarities)`
(`zip` truncates to the shortest list), keeping the items with
`similarity >= threshold` in their original order. -/
def filterAboveThreshold (docs : List String) (metas : List Json)
    (sims : List ℚ) (threshold : ℚ) : List ResultItem :=
  match docs, metas, sims with
  | doc :: ds, meta :: ms, s :: ss =>
    if threshold ≤ s then
      ⟨doc, meta, s⟩ :: filterAboveThreshold ds ms ss threshold
    else
      filterAboveThreshold ds ms ss threshold
  | _, _, _ => []

/-- Lines 85-100: build `processed_results` from the search response.
`.error` models an exception escaping this block to the outer handler
(an `IndexError` when `documents`/`metadatas` lack a first inner list
while `distances` has a non-empty one). -/
def processResults (results : QueryResults) (threshold : ℚ) :
    Except String (List ResultItem) :=
  match results.distances with
  | [] => .ok []
  | d0 :: _ =>
    match d0 with
    | [] => .ok []
    | _ :: _ =>
      let similarities := d0.map (fun dist => 1 - dist)
      match results.documents, results.metadatas with
      | docs0 :: _, metas0 :: _ =>
        .ok (filterAboveThreshold docs0 metas0 similarities threshold)
      | _, _ => .error "list index out of range"

/-- The body of the `try` block at lines 63-104 as the source actually
executes. Line 70 applies the name `Settings`, but the module never binds
it (no `from chromadb.config import Settings` among the imports on lines
1-5), so once the embedding check on line 66 passes, evaluating the
`settings=` argument raises `NameError: name 'Settings' is not defined`
before any store connection is attempted; `.error` models that exception
escaping to the handler on line 105. -/
def query_chroma_body (w : ChromaWorld) (n_results : Int) (threshold : ℚ) :
    Except String QueryOutput :=
  let query_embedding := get_embedding_from_ollama w.embedResp
  if pyListFalsy query_embedding then
    .ok (.error "Failed to get embedding for query")
  else
    .error "name 'Settings' is not defined"

/-- Lines 61-106: `query_chroma` as the source executes, the `except` on
line 105 wrapping any exception from the body. -/
def query_chroma (w : ChromaWorld) (n_results : Int) (threshold : ℚ) :
    QueryOutput :=
  match query_chroma_body w n_results threshold with
  | .ok out => out
  | .error e => .error ("Error querying ChromaDB: " ++ e)

/-- The body of the `try` block at lines 63-104 as it reads with the name
`Settings` bound (i.e. with the missing import supplied), which is the
spec's evident intent: connect with `anonymized_telemetry=False`, look up
the collection (its own `try` on lines 73-76 turning a failure into the
"Collection not found" payload), run the search with the requested
`n_results`, and process the results. In the actual module this path is
unreachable — see `query_chroma_body`. -/
def query_chroma_body_fixed (w : ChromaWorld) (n_results : Int)
    (threshold : ℚ) : Except String QueryOutput :=
  let query_embedding := get_embedding_from_ollama w.embedResp
  if pyListFalsy query_embedding then
    .ok (.error "Failed to get embedding for query")
  else
    match w.connect ⟨false⟩ with
    | .error e => .error e
    | .ok _ =>
      match w.getCollection with
      | .error e => .ok (.error ("Collection not found: " ++ e))
      | .ok _ =>
        match w.queryCall n_results with
        | .error e => .error e
        | .ok results =>
          match processResults results threshold with
          | .error e => .error e
          | .ok processed_results =>
            .ok (.success processed_results processed_results.length)

/-- `query_chroma` with the `Settings` name bound: the intended behaviour
the handler on line 105 wraps. -/
def query_chroma_fixed (w : ChromaWorld) (n_results : Int) (threshold : ℚ) :
    QueryOutput :=
  match query_chroma_body_fixed w n_results threshold with
  | .ok out => out
  | .error e => .error ("Error querying ChromaDB: " ++ e)

/-! ## Chat relay (`send_chat_to_ollama`, lines 108-131) -/

/-- One element of the `messages` list; passed through opaquely. -/
structure ChatMessage where
  role : String
  content : String

/-- The `options` dict built on lines 117-120. -/
structure ChatOptions where
  temperature : ℚ
  num_ctx : Nat

/-- The `data` dict sent to `POST {base_url}/api/chat`; `context = none`
means the `context` key is absent from the request. -/
structure ChatRequest where
  model : String
  messages : List ChatMessage
  options : ChatOptions
  context : Option Json

/-- Python's truth test on the `context` argument (line 124,
`if context:`): absent (`None`) is falsy, otherwise `jsonTruthy`. -/
def pyTruthyOptJson : Option Json → Bool
  | none => false
  | some c => jsonTruthy c

/-- Lines 113-125: build the outgoing request; the `context` key is added
only when `if context:` passes, and then holds the given value verbatim. -/
def buildChatRequest (messages : List ChatMessage) (model : String)
    (context : Option Json) : ChatRequest :=
  let data : ChatRequest := ⟨model, messages, ⟨7 / 10, 16384⟩, none⟩
  if pyTruthyOptJson context then
    ⟨model, messages, ⟨7 / 10, 16384⟩, context⟩
  else
    data

/-- The value `send_chat_to_ollama` returns: the server's decoded JSON
body unmodified, or the `{"error": ...}` dict. -/
inductive ChatResult where
  | response (body : Json) : ChatResult
  | error (msg : String) : ChatResult

/-- Lines 108-131. `server` is the behaviour of the chat endpoint on the
outgoing request: `.error e` when `requests.post`/`raise_for_status`/
`.json()` raises with message `e`, `.ok body` the decoded response. -/
def send_chat_to_ollama (messages : List ChatMessage) (model : String)
    (context : Option Json) (server : ChatRequest → Except String Json) :
    ChatResult :=
  let data := buildChatRequest messages model context
  match server data with
  | .ok body => .response body
  | .error e => .error ("Error sending chat to Ollama: " ++ e)

/-- The spec's words for when the chat request carries a `context` field:
"provided (non-null and non-empty)". Compare with the source's
`pyTruthyOptJson`. -/
def specContextProvided (context : Option Json) : Bool :=
  match context with
  | none => false
  | some c => !jsonIsNull c && !jsonIsEmpty c

/-! ## Command dispatcher, `query` branch (lines 137-146) -/

/-- Digits of a decimal numeral to its value; `none` when empty or when a
non-digit appears (Python's `int()`/`float()` raise `ValueError`). -/
def parseDigits (cs : List Char) : Option Nat :=
  if cs.isEmpty then
    none
  else
    cs.foldl
      (fun acc c =>
        acc.bind (fun n => if c.isDigit then some (10 * n + (c.toNat - 48)) else none))
      (some 0)

/-- Python's `int()` (line 142) on the forms the claims exercise: an
optional leading minus sign and decimal digits; `none` models a
`ValueError`. (Whitespace, `+`, underscores and other accepted Python
forms are out of scope for the claims below.) -/
def parsePyInt (s : String) : Option Int :=
  match s.toList with
  | '-' :: rest => (parseDigits rest).map (fun n => -(n : Int))
  | cs => (parseDigits cs).map (fun n => (n : Int))

/-- Split a character list at its first `'.'`, if any. -/
def splitFirstDot : List Char → List Char × Option (List Char)
  | [] => ([], none)
  | c :: cs =>
    if c = '.' then
      ([], some cs)
    else
      let r := splitFirstDot cs
      (c :: r.1, r.2)

/-- Python's `float()` (line 143) on the forms the claims exercise:
`digits` or `digits.digits`; `none` models a `ValueError`. (Signs,
exponents, leading/trailing dots and `inf`/`nan` are out of scope for the
claims below.) -/
def parsePyFloat (s : String) : Option ℚ :=
  match splitFirstDot s.toList with
  | (whole, none) => (parseDigits whole).map (fun n => (n : ℚ))
  | (whole, some frac) =>
    match parseDigits whole, parseDigits frac with
    | some wn, some fn => some ((wn : ℚ) + (fn : ℚ) / (10 : ℚ) ^ frac.length)
    | _, _ => none

/-- What the `query` branch of the dispatcher does: invoke the operation
with the parsed arguments, or terminate with an uncaught fault. -/
inductive DispatchStep where
  | invoke (query_text db_path embedding_model base_url : String)
      (n_results : Int) (threshold : ℚ) : DispatchStep
  | fault (msg : String) : DispatchStep

/-- Lines 137-145, entered when `sys.argv[1] == "query"`: read
`sys.argv[2]` through `sys.argv[7]` unconditionally (an absent index
raises an uncaught `IndexError`), convert with `int()` and `float()`
(an unparsable argument raises an uncaught `ValueError`), then call
`query_chroma` with all six arguments. `argv` includes the program name
at index 0. -/
def queryDispatch (argv : List String) : DispatchStep :=
  match argv.get? 2, argv.get? 3, argv.get? 4, argv.get? 5,
      argv.get? 6, argv.get? 7 with
  | some query_text, some db_path, some embedding_model, some base_url,
      some a6, some a7 =>
    match parsePyInt a6 with
    | none => .fault "ValueError: invalid literal for int()"
    | some n_results =>
      match parsePyFloat a7 with
      | none => .fault "ValueError: could not convert string to float"
      | some threshold =>
        .invoke query_text db_path embedding_model base_url n_results threshold
  | _, _, _, _, _, _ => .fault "IndexError: list index out of range"

/-! ## General lemmas about the result processing (lines 86-104) -/

/-- Every item the filtering loop keeps has similarity at or above the
threshold. -/
theorem filterAboveThreshold_mem_ge (docs : List String) (metas : List Json)
    (sims : List ℚ) (t : ℚ) :
    ∀ item ∈ filterAboveThreshold docs metas sims t, t ≤ item.similarity := by
  induction docs generalizing metas sims with
  | nil => intro item h; simp [filterAboveThreshold] at h
  | cons doc ds ih =>
    intro item h
    match metas, sims with
    | [], _ => simp [filterAboveThreshold] at h
    | _ :: _, [] => simp [filterAboveThreshold] at h
    | meta :: ms, s :: ss =>
      rw [filterAboveThreshold] at h
      by_cases hts : t ≤ s
      · rw [if_pos hts] at h
        rcases List.mem_cons.mp h with hitem | hmem
        · rw [hitem]; exact hts
        · exact ih ms ss item hmem
      · rw [if_neg hts] at h
        exact ih ms ss item h

/-- The similarities of the kept items form a sublist of the incoming
similarity list: the loop never reorders, it only drops. -/
theorem filterAboveThreshold_sublist (docs : List String) (metas : List Json)
    (sims : List ℚ) (t : ℚ) :
    ((filterAboveThreshold docs metas sims t).map
      (fun item => item.similarity)).Sublist sims := by
  induction docs generalizing metas sims with
  | nil => simp [filterAboveThreshold]
  | cons doc ds ih =>
    match metas, sims with
    | [], _ => simp [filterAboveThreshold]
    | _ :: _, [] => simp [filterAboveThreshold]
    | meta :: ms, s :: ss =>
      rw [filterAboveThreshold]
      by_cases hts : t ≤ s
      · rw [if_pos hts]
        exact List.Sublist.cons₂ s (ih ms ss)
      · rw [if_neg hts]
        exact List.Sublist.cons s (ih ms ss)

/-- Helper: the request `buildChatRequest` constructs, written with the
context decision as a single conditional. -/
theorem buildChatRequest_eq (messages : List ChatMessage) (model : String)
    (context : Option Json) :
    buildChatRequest messages model context =
      ⟨model, messages, ⟨7 / 10, 16384⟩,
        if pyTruthyOptJson context then context else none⟩ := by
  unfold buildChatRequest
  split
  · rfl
  · rfl

/-! ## Claim theorems -/

/-- C1: the claim says a similarity query whose embedder returns a vector
opens a persistent store connection with telemetry disabled and, when the
collection exists and the search succeeds, returns the success shape.
In the source this never happens: line 70 applies the unbound name
Settings, so the call raises NameError before any connection is opened and
the operation returns the wrapped NameError payload instead of the success
shape. The second conjunct shows the intended behaviour (the code with the
missing import supplied) on the same input: the connection step is reached
and the success shape is returned. -/
theorem query_connection_code_bug :
    query_chroma
        ⟨Except.ok ⟨some [1 / 2]⟩, fun _ => Except.ok (), Except.ok (),
          fun _ => Except.ok
            ⟨[[1 / 10, 1 / 5]], [["a", "b"]], [[Json.null, Json.null]]⟩⟩
        5 (3 / 4)
      = .error "Error querying ChromaDB: name 'Settings' is not defined"
    ∧ query_chroma_fixed
        ⟨Except.ok ⟨some [1 / 2]⟩, fun _ => Except.ok (), Except.ok (),
          fun _ => Except.ok
            ⟨[[1 / 10, 1 / 5]], [["a", "b"]], [[Json.null, Json.null]]⟩⟩
        5 (3 / 4)
      = .success
          [⟨"a", Json.null, 1 - 1 / 10⟩, ⟨"b", Json.null, 1 - 1 / 5⟩] 2 := by
  refine ⟨rfl, ?_⟩
  norm_num [query_chroma_fixed, query_chroma_body_fixed, processResults,
    filterAboveThreshold, get_embedding_from_ollama, pyListFalsy]

/-- C2: the claim says each raw distance the store returns is converted to
the similarity 1 - distance, items below the threshold are dropped, order
is preserved and the count is the length of the filtered list. The
processing code on lines 86-104 does exactly that (second conjunct, on the
spec's own example: distances 0.1, 0.3, 0.5 with threshold 0.8 keep only
the first item, count 1), but in the source it is unreachable: the unbound
name Settings on line 70 raises before the store can ever return
distances, so the operation returns the wrapped NameError payload (first
conjunct). -/
theorem query_similarity_processing_code_bug :
    query_chroma
        ⟨Except.ok ⟨some [1 / 2]⟩, fun _ => Except.ok (), Except.ok (),
          fun _ => Except.ok
            ⟨[[1 / 10, 3 / 10, 1 / 2]], [["d1", "d2", "d3"]],
              [[Json.null, Json.null, Json.null]]⟩⟩
        3 (4 / 5)
      = .error "Error querying ChromaDB: name 'Settings' is not defined"
    ∧ query_chroma_fixed
        ⟨Except.ok ⟨some [1 / 2]⟩, fun _ => Except.ok (), Except.ok (),
          fun _ => Except.ok
            ⟨[[1 / 10, 3 / 10, 1 / 2]], [["d1", "d2", "d3"]],
              [[Json.null, Json.null, Json.null]]⟩⟩
        3 (4 / 5)
      = .success [⟨"d1", Json.null, 1 - 1 / 10⟩] 1 := by
  refine ⟨rfl, ?_⟩
  norm_num [query_chroma_fixed, query_chroma_body_fixed, processResults,
    filterAboveThreshold, get_embedding_from_ollama, pyListFalsy]

/-- C3: for every behaviour of the embedder, the store connection, the
collection lookup and the search, the similarity query returns either the
success shape or the error shape, and any exception the try body raises is
caught by the handler on line 105 and wrapped into the error payload, so
no exception crosses the function boundary. -/
theorem query_chroma_no_uncaught_exception (w : ChromaWorld) (n_results : Int)
    (threshold : ℚ) :
    ((∃ items count,
        query_chroma w n_results threshold = .success items count)
      ∨ (∃ msg, query_chroma w n_results threshold = .error msg))
    ∧ (∀ e, query_chroma_body w n_results threshold = .error e →
        query_chroma w n_results threshold
          = .error ("Error querying ChromaDB: " ++ e)) := by
  constructor
  · match h : query_chroma w n_results threshold with
    | .success items count => exact Or.inl ⟨items, count, rfl⟩
    | .error msg => exact Or.inr ⟨msg, rfl⟩
  · intro e he
    unfold query_chroma
    rw [he]

/-- Witness for C3 at a concrete world: the embedder succeeds, the body
raises the NameError, and the operation returns the wrapped payload. -/
theorem query_chroma_no_uncaught_exception_witness :
    query_chroma
        ⟨Except.ok ⟨some [1]⟩, fun _ => Except.ok (), Except.ok (),
          fun _ => Except.ok ⟨[], [], []⟩⟩ 5 (3 / 4)
      = .error ("Error querying ChromaDB: "
          ++ "name 'Settings' is not defined") :=
  (query_chroma_no_uncaught_exception
    ⟨Except.ok ⟨some [1]⟩, fun _ => Except.ok (), Except.ok (),
      fun _ => Except.ok ⟨[], [], []⟩⟩ 5 (3 / 4)).2
    "name 'Settings' is not defined" rfl

/-- C4: the embedder returns none both on a transport/HTTP error and on a
response body lacking the embedding field, and returns the raw vector when
the field is present; its return type has no error-object shape and the
function is total, so it never throws. -/
theorem get_embedding_spec (e : String) (v : List ℚ) :
    get_embedding_from_ollama (.error e) = none
    ∧ get_embedding_from_ollama (.ok ⟨none⟩) = none
    ∧ get_embedding_from_ollama (.ok ⟨some v⟩) = some v :=
  ⟨rfl, rfl, rfl⟩

/-- C5: when the embedder yields no vector, the similarity query returns
exactly the failed-embedding error payload, and its result does not depend
on the store connection, collection lookup or search behaviour at all
(none of them is invoked). -/
theorem query_no_embedding_short_circuit (w : ChromaWorld) (n_results : Int)
    (threshold : ℚ)
    (h : get_embedding_from_ollama w.embedResp = none) :
    query_chroma w n_results threshold
      = .error "Failed to get embedding for query"
    ∧ ∀ (c : Settings → Except String Unit) (g : Except String Unit)
        (qc : Int → Except String QueryResults),
        query_chroma ⟨w.embedResp, c, g, qc⟩ n_results threshold
          = query_chroma w n_results threshold := by
  constructor
  · simp [query_chroma, query_chroma_body, h, pyListFalsy]
  · intro c g qc
    rfl

/-- Witness for C5: an embedder transport failure makes the query return
the failed-embedding payload. -/
theorem query_no_embedding_short_circuit_witness :
    query_chroma
        ⟨Except.error "connection refused", fun _ => Except.ok (),
          Except.ok (), fun _ => Except.ok ⟨[], [], []⟩⟩ 5 (3 / 4)
      = .error "Failed to get embedding for query" :=
  (query_no_embedding_short_circuit
    ⟨Except.error "connection refused", fun _ => Except.ok (), Except.ok (),
      fun _ => Except.ok ⟨[], [], []⟩⟩ 5 (3 / 4) rfl).1

/-- C6: the claim says a missing document_collection makes the operation
return a payload containing Collection not found plus the underlying
message. Lines 73-76 would do that (second conjunct, on the intended code
with the import supplied), but in the source the lookup is never invoked:
the unbound name Settings on line 70 raises first, so the operation
returns the wrapped NameError payload instead (first conjunct). -/
theorem query_collection_missing_code_bug :
    query_chroma
        ⟨Except.ok ⟨some [1 / 2]⟩, fun _ => Except.ok (),
          Except.error "Collection document_collection does not exist.",
          fun _ => Except.ok ⟨[], [], []⟩⟩ 5 (3 / 4)
      = .error "Error querying ChromaDB: name 'Settings' is not defined"
    ∧ query_chroma_fixed
        ⟨Except.ok ⟨some [1 / 2]⟩, fun _ => Except.ok (),
          Except.error "Collection document_collection does not exist.",
          fun _ => Except.ok ⟨[], [], []⟩⟩ 5 (3 / 4)
      = .error ("Collection not found: "
          ++ "Collection document_collection does not exist.") :=
  ⟨rfl, rfl⟩

/-- C7 counterexample: invoked from the command surface with the limit and
threshold omitted, the query branch does not run the operation with the
defaults 5 and 0.75 — it reads sys.argv[6] unconditionally and terminates
with an uncaught IndexError, so no invocation happens at all. -/
theorem query_cli_defaults_counterexample :
    queryDispatch
        ["api_proxy_helper.py", "query", "what is rust", "/db",
          "all-minilm", "http://localhost:11434"]
      = .fault "IndexError: list index out of range"
    ∧ ¬ ∃ query_text db_path embedding_model base_url,
        queryDispatch
            ["api_proxy_helper.py", "query", "what is rust", "/db",
              "all-minilm", "http://localhost:11434"]
          = .invoke query_text db_path embedding_model base_url
              default_n_results default_threshold := by
  refine ⟨rfl, ?_⟩
  rintro ⟨query_text, db_path, embedding_model, base_url, h⟩
  exact DispatchStep.noConfusion h

/-- C7 amended: the defaults 5 and 0.75 live only in the function
signature on line 61; the command surface always passes both arguments
explicitly — omitting them faults with an uncaught IndexError, and
supplied values are parsed and forwarded as given. -/
theorem query_cli_requires_limit_and_threshold (q db em u : String) :
    queryDispatch ["api_proxy_helper.py", "query", q, db, em, u]
      = .fault "IndexError: list index out of range"
    ∧ queryDispatch ["api_proxy_helper.py", "query", q, db, em, u, "3", "0.8"]
      = .invoke q db em u 3 (4 / 5)
    ∧ default_n_results = 5
    ∧ default_threshold = 3 / 4 := by
  refine ⟨rfl, ?_, rfl, by norm_num [default_threshold]⟩
  have h1 : parsePyInt "3" = some 3 := by
    norm_num +decide [parsePyInt, parseDigits, String.toList]
  have h2 : parsePyFloat "0.8" = some (4 / 5) := by
    have hs : splitFirstDot "0.8".toList = (['0'], some ['8']) := by decide
    have hw : parseDigits ['0'] = some 0 := by decide
    have hf : parseDigits ['8'] = some 8 := by decide
    simp only [parsePyFloat, hs, hw, hf]
    norm_num
  simp [queryDispatch, h1, h2, List.get?]

/-- C8: with include_details false, a response carrying a models key is
reshaped into exactly the ordered list of the records' names with the
matching count; in particular the two-record example from the spec. -/
theorem get_models_names_spec (records : List ModelRecord) :
    get_models_from_ollama (.ok ⟨some records⟩) false
      = .names (records.map (fun m => m.name)) records.length
    ∧ get_models_from_ollama
        (.ok ⟨some [⟨"llama3", []⟩, ⟨"mistral", []⟩]⟩) false
      = .names ["llama3", "mistral"] 2 := by
  constructor
  · simp [get_models_from_ollama]
  · rfl

/-- C9 counterexample: the claim says the outgoing request has a context
field if and only if a context was provided that is non-null and
non-empty. The JSON number 0 is provided, non-null and non-empty (it is
no empty array, object or string), yet Python's truth test on line 124
rejects it and the request carries no context field. -/
theorem chat_context_zero_counterexample :
    specContextProvided (some (Json.num 0)) = true
    ∧ (buildChatRequest [⟨"user", "hi"⟩] "llama3" (some (Json.num 0))).context
        = none := by
  refine ⟨rfl, ?_⟩
  simp [buildChatRequest, pyTruthyOptJson, jsonTruthy]

/-- C9 amended: every chat request carries the given model, the message
list unmodified and exactly the fixed options temperature 0.7 and context
window 16384; the context field is present if and only if a prior context
was provided and passes Python's truth test (non-null, non-empty,
non-zero, not false), in which case it is forwarded verbatim; a successful
server response is returned unmodified and a transport failure becomes the
error payload. -/
theorem send_chat_request_spec (messages : List ChatMessage) (model : String)
    (context : Option Json) (j : Json) (e : String) :
    (buildChatRequest messages model context).model = model
    ∧ (buildChatRequest messages model context).messages = messages
    ∧ (buildChatRequest messages model context).options = ⟨7 / 10, 16384⟩
    ∧ (∀ c, (buildChatRequest messages model context).context = some c
        ↔ (context = some c ∧ jsonTruthy c = true))
    ∧ send_chat_to_ollama messages model context (fun _ => .ok j)
        = .response j
    ∧ send_chat_to_ollama messages model context (fun _ => .error e)
        = .error ("Error sending chat to Ollama: " ++ e) := by
  refine ⟨?_, ?_, ?_, ?_, rfl, rfl⟩
  · rw [buildChatRequest_eq]
  · rw [buildChatRequest_eq]
  · rw [buildChatRequest_eq]
  · intro c
    rw [buildChatRequest_eq]
    show (if pyTruthyOptJson context then context else none) = some c ↔ _
    match context with
    | none => simp [pyTruthyOptJson]
    | some x =>
      rw [show pyTruthyOptJson (some x) = jsonTruthy x from rfl]
      by_cases hx : jsonTruthy x = true
      · rw [if_pos hx]
        constructor
        · intro hxc
          refine ⟨hxc, ?_⟩
          injection hxc with hxc'
          rw [← hxc']
          exact hx
        · intro hand
          exact hand.1
      · rw [if_neg hx]
        constructor
        · intro hnone
          exact absurd hnone (by simp)
        · intro hand
          injection hand.1 with hxc'
          rw [← hxc'] at hand
          exact absurd hand.2 hx

/-- C10: the claim says a successful search with no distances (empty
distances field, or an empty first inner list) yields the success shape
with empty results and count 0. The processing code would do that (second
and fourth conjuncts, on the intended code with the import supplied), but
in the source the search is unreachable: the unbound name Settings on
line 70 raises first and the operation returns the wrapped NameError
payload (first and third conjuncts). -/
theorem query_empty_distances_code_bug :
    query_chroma
        ⟨Except.ok ⟨some [1 / 2]⟩, fun _ => Except.ok (), Except.ok (),
          fun _ => Except.ok ⟨[], [], []⟩⟩ 5 (3 / 4)
      = .error "Error querying ChromaDB: name 'Settings' is not defined"
    ∧ query_chroma_fixed
        ⟨Except.ok ⟨some [1 / 2]⟩, fun _ => Except.ok (), Except.ok (),
          fun _ => Except.ok ⟨[], [], []⟩⟩ 5 (3 / 4)
      = .success [] 0
    ∧ query_chroma
        ⟨Except.ok ⟨some [1 / 2]⟩, fun _ => Except.ok (), Except.ok (),
          fun _ => Except.ok ⟨[[]], [["d"]], [[Json.null]]⟩⟩ 5 (3 / 4)
      = .error "Error querying ChromaDB: name 'Settings' is not defined"
    ∧ query_chroma_fixed
        ⟨Except.ok ⟨some [1 / 2]⟩, fun _ => Except.ok (), Except.ok (),
          fun _ => Except.ok ⟨[[]], [["d"]], [[Json.null]]⟩⟩ 5 (3 / 4)
      = .success [] 0 :=
  ⟨rfl, rfl, rfl, rfl⟩
